import Mathlib

set_option maxHeartbeats 1000000
set_option linter.unusedVariables false

namespace NebullvmTensorRT

/-- Quantization algorithms requested by the optimization pipeline.
Modelled from the spec: `QuantizationType` is declared in `nebullvm.tools.base`,
outside the source core; the spec fixes the request space as
none / static / half, and the Python `None` request is modelled as
`Option.none` at use sites. -/
inductive QuantizationType where
  | static
  | half
deriving DecidableEq, Repr

/-- Device class keying the capability table (`self.device.value`).
Modelled from the spec: the `device` attribute comes from the abstract
`Compiler` base class, outside the source core; the spec keys the support
table by the device classes `cpu` and `gpu`. -/
inductive Device where
  | cpu
  | gpu
deriving DecidableEq, Repr

/-- Torch tensor / model placement (host memory versus the cuda accelerator). -/
inductive Dev where
  | cpuDev
  | cudaDev
deriving DecidableEq, Repr

/-- Tensor element dtypes that the dtype negotiation in `tensor_rt.py` touches. -/
inductive TDtype where
  | float32
  | half
  | int8
  | int32
  | int64
deriving DecidableEq, Repr

/-- Input-space transformation pipeline entries
(`nebullvm.tools.transformations`); only the half-precision entry is
distinguished by the source core, every other entry is opaque. -/
inductive Tfm where
  | halfPrecisionTransformation
  | otherTfm (id : Nat)
deriving DecidableEq, Repr

/-- Shallow torch tensor: shape, element dtype and placement. -/
structure Tensor where
  shape : List Nat
  dtype : TDtype
  device : Dev
deriving DecidableEq, Repr

/-- Shallow torch module: exactly the fields `tensor_rt.py` observes or
mutates via `.cuda()`, `.eval()`, `.half()` and `torch.jit.trace`. -/
structure TorchModel where
  dtype : TDtype
  device : Dev
  training : Bool
  traced : Bool
deriving DecidableEq, Repr

/-- Argument of one `torch_tensorrt.Input(tensor.shape, dtype=...)` call. -/
structure TRTInput where
  shape : List Nat
  dtype : TDtype
deriving DecidableEq, Repr

/-- Sample data source. Modelled from the spec: `DataManager` lives in
`nebullvm.tools.data`, outside the source core. The source core reads
`input_data.get_list(1)[0]` (the first batch of input tensors, modelled as
`batch`) and `input_data.get_split("train")` (whose content flows only to the
external backend, so only the access itself is modelled). -/
structure DataManager where
  batch : List Tensor
deriving DecidableEq, Repr

/-- Per-input static shape plus optional per-dimension minimum bounds.
Modelled from the spec: `InputInfo` lives in `nebullvm.tools.base`; the spec
describes a static size per input and optional per-dimension minimum size
bounds, which the source reads as a dictionary lookup with default 1. -/
structure InputInfo where
  size : List Nat
  min_sizes : Option (List (Nat × Nat))
deriving DecidableEq, Repr

/-- Dynamic-dimension declarations: for each input, the collection of its
dynamic axes, read by the membership tests `0 in input_dynamic_info` and
`i + 1 in input_dynamic_info`. Modelled from the spec: `DynamicInfo` lives in
`nebullvm.tools.base`. -/
structure DynamicInfo where
  inputs : List (List Nat)
deriving DecidableEq, Repr

/-- Compilation-target description. Modelled from the spec: `ModelParams`
lives in `nebullvm.tools.base`; the source core reads `batch_size`,
`input_infos` and `dynamic_info`. -/
structure ModelParams where
  batch_size : Nat
  input_infos : List InputInfo
  dynamic_info : Option DynamicInfo
deriving DecidableEq, Repr

/-- Distinguished payloads of the two explicit `ValueError`s in `tensor_rt.py`:
the static-quantization data requirement, and the ONNX parse failure message
that names the offending file path. -/
inductive ErrMsg where
  | inputDataRequired
  | onnxParseError (path : String)
deriving DecidableEq, Repr

/-- Python exceptions that can escape an `execute` call in the embedding: the
two explicit `ValueError`s of the source, the `AttributeError` raised by
dereferencing a `None` argument, and any exception propagated from the
external toolchain. -/
inductive Err where
  | valueError (msg : ErrMsg)
  | attributeError
  | backendFailure
deriving DecidableEq, Repr

/-- Result of one `execute` call: normal return or an escaped exception. -/
inductive ExecResult where
  | ok
  | err (e : Err)
deriving DecidableEq, Repr

/-- Observable log entries emitted during one `execute` call. -/
inductive LogEvent where
  | infoOptimizing
  | warnMemoryPool
  | debugParserMsg (msg : String)
deriving DecidableEq, Repr

/-- Backend-object construction and invocation events, recorded in program
order during one `execute` call. -/
inductive BEvent where
  | calibratorCreated
  | compileInvoked
  | builderCreated
  | networkCreated
  | configCreated
  | parserCreated
  | profileCreated
deriving DecidableEq, Repr

/-- Capability table declared on `TensorRTCompiler` (tensor_rt.py lines
38-45): cpu supports nothing, gpu supports no-quantization, static and half. -/
def supported_ops : Device → List (Option QuantizationType)
  | Device.cpu => []
  | Device.gpu => [none, some QuantizationType.static, some QuantizationType.half]

/-- Per-tensor input preparation of `PyTorchTensorRTCompiler.execute`
(tensor_rt.py lines 121-127): move to cuda, converting int64 tensors to
int32 first, every other dtype unchanged. -/
def convertInputTensor (t : Tensor) : Tensor :=
  if t.dtype ≠ TDtype.int64 then { t with device := Dev.cudaDev }
  else { t with dtype := TDtype.int32, device := Dev.cudaDev }

/-- Per-tensor dtype put on `torch_tensorrt.Input` (tensor_rt.py lines
160-171): half precision only when compiling at half and the tensor is not
int8 / int32, otherwise the tensor keeps its dtype. -/
def trtInputDtype (dtype : TDtype) (t : Tensor) : TDtype :=
  if dtype = TDtype.half ∧ t.dtype ∉ [TDtype.int8, TDtype.int32] then TDtype.half
  else t.dtype

/-- Environment of external-toolchain behavior for one native-graph call:
whether `torch.jit.script` raises, whether the fallback `torch.jit.trace`
raises, whether `torch_tensorrt.compile` returns an engine (`some`) or raises
(`none`), and whether the backend writes the `calibration.cache` file while
compiling. -/
structure TorchEnv where
  scriptRaises : Bool
  traceRaises : Bool
  compileResult : Option Nat
  compileCreatesCache : Bool
deriving DecidableEq, Repr

/-- Outcome of one `PyTorchTensorRTCompiler._compile_model` call. -/
structure TorchCompileOut where
  result : Option Nat
  model : TorchModel
  cache : Bool
  events : List BEvent
  compileArg : Option TorchModel
  trtInputs : Option (List TRTInput)
  calibratorArg : Bool
deriving DecidableEq, Repr

/-- Shallow embedding of `PyTorchTensorRTCompiler._compile_model`
(tensor_rt.py lines 139-191): move the caller's model to cuda in eval mode,
check scriptability with a trace fallback, compile either the local model or
a half-cast deep copy of it, and delete `calibration.cache` only after the
compile call returned (the deletion is skipped when the backend raises). -/
def torchCompileModel (env : TorchEnv) (model : TorchModel)
    (inputTensors : List Tensor) (dtype : TDtype) (calibrator : Bool)
    (cache : Bool) : TorchCompileOut :=
  let modelAfter : TorchModel :=
    { model with device := Dev.cudaDev, training := false }
  if env.scriptRaises && env.traceRaises then
    { result := none, model := modelAfter, cache := cache, events := [],
      compileArg := none, trtInputs := none, calibratorArg := calibrator }
  else
    let localModel :=
      if env.scriptRaises then { modelAfter with traced := true } else modelAfter
    let arg :=
      if dtype = TDtype.half then { localModel with dtype := TDtype.half }
      else localModel
    let ins := inputTensors.map (fun t => TRTInput.mk t.shape (trtInputDtype dtype t))
    match env.compileResult with
    | none =>
      { result := none, model := modelAfter,
        cache := cache || env.compileCreatesCache,
        events := [BEvent.compileInvoked], compileArg := some arg,
        trtInputs := some ins, calibratorArg := calibrator }
    | some m =>
      { result := some m, model := modelAfter, cache := false,
        events := [BEvent.compileInvoked], compileArg := some arg,
        trtInputs := some ins, calibratorArg := calibrator }

/-- Observable outcome of one `PyTorchTensorRTCompiler.execute` call: the
call result, the caller's model and transformation pipeline afterwards, the
`calibration.cache` existence bit, backend events, log entries, the list of
assignments made to `self.compiled_model` during the call, and the prepared
and presented inputs. -/
structure TorchOut where
  result : ExecResult
  model : TorchModel
  tfms : Option (List Tfm)
  cache : Bool
  events : List BEvent
  log : List LogEvent
  sets : List (Option Nat)
  inputTensors : Option (List Tensor)
  compileArg : Option TorchModel
  trtInputs : Option (List TRTInput)
deriving DecidableEq, Repr

/-- Common tail of `PyTorchTensorRTCompiler.execute` after dtype resolution
(tensor_rt.py lines 121-137): prepare the input tensors (int64 to int32,
move to cuda) from the first batch of `input_data`, call `_compile_model`,
and assign `self.compiled_model` on success. -/
def torchRest (model : TorchModel) (tfms : Option (List Tfm)) (dtype : TDtype)
    (calibrator : Bool) (input_data : Option DataManager) (env : TorchEnv)
    (cache0 : Bool) (log0 : List LogEvent) (ev0 : List BEvent) : TorchOut :=
  match input_data with
  | none =>
    { result := ExecResult.err Err.attributeError, model := model, tfms := tfms,
      cache := cache0, events := ev0, log := log0, sets := [],
      inputTensors := none, compileArg := none, trtInputs := none }
  | some d =>
    let its := d.batch.map convertInputTensor
    let c := torchCompileModel env model its dtype calibrator cache0
    match c.result with
    | none =>
      { result := ExecResult.err Err.backendFailure, model := c.model,
        tfms := tfms, cache := c.cache, events := ev0 ++ c.events, log := log0,
        sets := [], inputTensors := some its, compileArg := c.compileArg,
        trtInputs := c.trtInputs }
    | some m =>
      { result := ExecResult.ok, model := c.model, tfms := tfms,
        cache := c.cache, events := ev0 ++ c.events, log := log0,
        sets := [some m], inputTensors := some its, compileArg := c.compileArg,
        trtInputs := c.trtInputs }

/-- Shallow embedding of `PyTorchTensorRTCompiler.execute` (tensor_rt.py
lines 57-137): capability gate, static-quantization data requirement, dtype
resolution with the half-precision pipeline append and the static calibrator
construction, input preparation, compilation and the `self.compiled_model`
assignment. `check_quantization` is modelled from the spec as a no-op, since
the spec states threshold validation is delegated elsewhere. -/
def torchExecute (device : Device) (model : TorchModel) (params : ModelParams)
    (input_tfms : Option (List Tfm)) (metric_drop_ths : Option Nat)
    (quantization_type : Option QuantizationType)
    (input_data : Option DataManager) (env : TorchEnv) (cache0 : Bool) :
    TorchOut :=
  if quantization_type ∉ supported_ops device then
    { result := ExecResult.ok, model := model, tfms := input_tfms,
      cache := cache0, events := [], log := [], sets := [none],
      inputTensors := none, compileArg := none, trtInputs := none }
  else if quantization_type = some QuantizationType.static ∧ input_data = none then
    { result := ExecResult.err (Err.valueError ErrMsg.inputDataRequired),
      model := model, tfms := input_tfms, cache := cache0, events := [],
      log := [], sets := [], inputTensors := none, compileArg := none,
      trtInputs := none }
  else
    let log0 := [LogEvent.infoOptimizing]
    match quantization_type with
    | some QuantizationType.half =>
      match input_tfms with
      | none =>
        { result := ExecResult.err Err.attributeError, model := model,
          tfms := none, cache := cache0, events := [], log := log0, sets := [],
          inputTensors := none, compileArg := none, trtInputs := none }
      | some l =>
        torchRest model (some (l ++ [Tfm.halfPrecisionTransformation]))
          TDtype.half false input_data env cache0 log0 []
    | some QuantizationType.static =>
      match input_data with
      | none =>
        { result := ExecResult.err Err.attributeError, model := model,
          tfms := input_tfms, cache := cache0, events := [], log := log0,
          sets := [], inputTensors := none, compileArg := none,
          trtInputs := none }
      | some d =>
        torchRest model input_tfms TDtype.int8 true (some d) env cache0 log0
          [BEvent.calibratorCreated]
    | none =>
      torchRest model input_tfms TDtype.float32 false input_data env cache0
        log0 []

/-- Environment of external behavior for one interchange-format call: whether
the `onnxsim` module imports, whether spawning the simplifier process raises,
whether a spawned simplifier run actually produces the simplified file,
whether the builder configuration exposes `set_memory_pool_limit`, the graph
input names reported for the chosen file, the parser verdict and diagnostics
per file path, and whether `build_serialized_network` returns an engine
(`some`) or raises (`none`). -/
structure OnnxEnv where
  onnxsimAvailable : Bool
  spawnRaises : Bool
  simplifierSucceeds : Bool
  hasMemoryPoolApi : Bool
  inputNames : List String
  parseOk : String → Bool
  parseErrors : String → List String
  buildResult : Option Nat

/-- One optimization-profile entry: input name, minimum, optimal and maximum
shape, as passed to `profile.set_shape`. -/
abbrev ProfileEntry := String × List Nat × List Nat × List Nat

/-- Python dictionary `get` with a default, over an association list. -/
def dictGet (l : List (Nat × Nat)) (d : Nat) (dflt : Nat) : Nat :=
  match l.find? (fun p => p.1 == d) with
  | none => dflt
  | some p => p.2

/-- Reading of the per-dimension minimum bound with default 1
(tensor_rt.py line 344). -/
def minSizeLookup (ms : Option (List (Nat × Nat))) (d : Nat) : Nat :=
  match ms with
  | none => 1
  | some l => dictGet l d 1

/-- Minimum shape of one profile entry (tensor_rt.py lines 337-347): batch
dimension shrinks to `min(batch_size, 1)` when dimension 0 is dynamic; each
later dimension is its static size unless dynamic, in which case it is the
declared minimum bound with default 1. -/
def minShape (batch : Nat) (dyn : List Nat) (info : InputInfo) : List Nat :=
  (if 0 ∈ dyn then min batch 1 else batch) ::
    info.size.enum.map (fun p =>
      if p.1 + 1 ∈ dyn then minSizeLookup info.min_sizes (p.1 + 1) else p.2)

/-- Optimization profile over all declared inputs (tensor_rt.py lines
328-351): `zip` of the graph input names, the per-input dynamic axes and the
per-input static infos, truncating to the shortest as Python `zip` does; the
optimal and maximum shapes are both the configured batch size followed by the
static sizes. -/
def buildProfile (batch : Nat) (names : List String) (dyns : List (List Nat))
    (infos : List InputInfo) : List ProfileEntry :=
  (names.zip (dyns.zip infos)).map (fun x =>
    (x.1, minShape batch x.2.1 x.2.2, batch :: x.2.2.size, batch :: x.2.2.size))

/-- Simplification pre-pass of `ONNXTensorRTCompiler.execute` (tensor_rt.py
lines 247-265), returning the chosen graph path and the file system after the
step. An unavailable `onnxsim` module or a raising process spawn is caught by
the broad `except` and falls back to the original path; a spawned simplifier
process that runs to completion leaves the simplified path selected whether
or not it produced the simplified file, because `subprocess.run` is not asked
to check the exit status. -/
def simplifyStep (model : String) (env : OnnxEnv) (fs : List String) :
    String × List String :=
  if env.onnxsimAvailable then
    let simplified := model ++ "_simplified"
    if simplified ∈ fs then (simplified, fs)
    else if env.spawnRaises then (model, fs)
    else (simplified, if env.simplifierSucceeds then fs ++ [simplified] else fs)
  else (model, fs)

/-- Observable outcome of one `ONNXTensorRTCompiler.execute` call: the call
result, the file system afterwards, the graph path bound to
`onnx_model_path`, backend events, log entries, the list of assignments made
to `self.compiled_model` during the call, the optimization profile attached
to the configuration, whether the configuration was routed through
`_quantize_model`, and the final `self.model_orig` assignment. -/
structure OnnxOut where
  result : ExecResult
  fs : List String
  pathUsed : Option String
  events : List BEvent
  log : List LogEvent
  sets : List (Option Nat)
  profile : Option (List ProfileEntry)
  quantized : Bool
  model_orig : Option String
deriving DecidableEq, Repr

/-- Shallow embedding of `ONNXTensorRTCompiler._compile_model` (tensor_rt.py
lines 308-352): create the parser, parse the chosen file, on failure log
every parser diagnostic and raise a `ValueError` naming the file; otherwise
build the optimization profile when dynamic information is present and invoke
`build_serialized_network`. The success continuation also records the
`self.compiled_model` and `self.model_orig` assignments made by `execute`
right after `_compile_model` returns (tensor_rt.py lines 298-306). -/
def onnxCompileModel (env : OnnxEnv) (path : String) (params : ModelParams)
    (fs : List String) (log : List LogEvent) (ev : List BEvent)
    (quantized : Bool) : OnnxOut :=
  let ev1 := ev ++ [BEvent.parserCreated]
  if env.parseOk path then
    let pe : Option (List ProfileEntry) × List BEvent :=
      match params.dynamic_info with
      | none => (none, ev1)
      | some di =>
        (some (buildProfile params.batch_size env.inputNames di.inputs
            params.input_infos),
         ev1 ++ [BEvent.profileCreated])
    match env.buildResult with
    | none =>
      { result := ExecResult.err Err.backendFailure, fs := fs,
        pathUsed := some path, events := pe.2, log := log, sets := [],
        profile := pe.1, quantized := quantized, model_orig := none }
    | some a =>
      { result := ExecResult.ok, fs := fs, pathUsed := some path,
        events := pe.2, log := log, sets := [some a], profile := pe.1,
        quantized := quantized, model_orig := some path }
  else
    { result := ExecResult.err (Err.valueError (ErrMsg.onnxParseError path)),
      fs := fs, pathUsed := some path, events := ev1,
      log := log ++ (env.parseErrors path).map LogEvent.debugParserMsg,
      sets := [], profile := none, quantized := quantized, model_orig := none }

/-- Shallow embedding of `ONNXTensorRTCompiler.execute` (tensor_rt.py lines
203-306): capability gate, static-quantization data requirement, unconditional
extraction of training data from `input_data`, the best-effort simplification
pre-pass, construction of builder / network / configuration, the tolerated
absence of `set_memory_pool_limit` on older backends, the quantization
configuration step for any non-`None` quantization, and the compilation.
`check_quantization` is modelled from the spec as a no-op, since the spec
states threshold validation is delegated elsewhere; `quantize_tensorrt` is
external to the source core and is modelled as marking the configuration. -/
def onnxExecute (device : Device) (model : String) (params : ModelParams)
    (input_tfms : Option (List Tfm)) (metric_drop_ths : Option Nat)
    (quantization_type : Option QuantizationType)
    (input_data : Option DataManager) (env : OnnxEnv) (fs0 : List String) :
    OnnxOut :=
  if quantization_type ∉ supported_ops device then
    { result := ExecResult.ok, fs := fs0, pathUsed := none, events := [],
      log := [], sets := [none], profile := none, quantized := false,
      model_orig := none }
  else if quantization_type = some QuantizationType.static ∧ input_data = none then
    { result := ExecResult.err (Err.valueError ErrMsg.inputDataRequired),
      fs := fs0, pathUsed := none, events := [], log := [], sets := [],
      profile := none, quantized := false, model_orig := none }
  else
    let log0 := [LogEvent.infoOptimizing]
    match input_data with
    | none =>
      { result := ExecResult.err Err.attributeError, fs := fs0,
        pathUsed := none, events := [], log := log0, sets := [],
        profile := none, quantized := false, model_orig := none }
    | some d =>
      let s := simplifyStep model env fs0
      let ev1 := [BEvent.builderCreated, BEvent.networkCreated,
        BEvent.configCreated]
      let log1 := log0 ++
        (if env.hasMemoryPoolApi then [] else [LogEvent.warnMemoryPool])
      onnxCompileModel env s.1 params s.2 log1 ev1 quantization_type.isSome

/-- Concrete int64 tensor used by witnesses. -/
def mTensor : Tensor := { shape := [2, 3], dtype := TDtype.int64, device := Dev.cpuDev }

/-- Concrete float32 tensor used by witnesses. -/
def fTensor : Tensor := { shape := [2, 3], dtype := TDtype.float32, device := Dev.cpuDev }

/-- Concrete sample data source used by witnesses. -/
def sampleData : DataManager := { batch := [mTensor, fTensor] }

/-- Concrete torch model used by witnesses. -/
def sampleModel : TorchModel :=
  { dtype := TDtype.float32, device := Dev.cpuDev, training := true, traced := false }

/-- Concrete model parameters without dynamic information, used by witnesses. -/
def sampleParams : ModelParams :=
  { batch_size := 8, input_infos := [{ size := [3, 224, 224], min_sizes := none }],
    dynamic_info := none }

/-- Input info of the worked dynamic-shape example of the spec: static size
3 x 224 x 224 with minimum bound 32 declared for dimension 2. -/
def exInfo : InputInfo := { size := [3, 224, 224], min_sizes := some [(2, 32)] }

/-- Model parameters of the worked dynamic-shape example of the spec:
batch size 8, dimensions 0 and 2 dynamic. -/
def exParams : ModelParams :=
  { batch_size := 8, input_infos := [exInfo],
    dynamic_info := some { inputs := [[0, 2]] } }

/-- Benign native-graph environment: scripting works and compilation returns
engine 7 without touching the calibration cache. -/
def okTorchEnv : TorchEnv :=
  { scriptRaises := false, traceRaises := false, compileResult := some 7,
    compileCreatesCache := false }

/-- Native-graph environment in which `torch_tensorrt.compile` raises after
the backend has written `calibration.cache`. -/
def failTorchEnv : TorchEnv :=
  { scriptRaises := false, traceRaises := false, compileResult := none,
    compileCreatesCache := true }

/-- Benign interchange-format environment: simplifier available and working,
recent backend, one graph input, every file parses, build returns engine 9. -/
def okOnnxEnv : OnnxEnv :=
  { onnxsimAvailable := true, spawnRaises := false, simplifierSucceeds := true,
    hasMemoryPoolApi := true, inputNames := ["input_0"],
    parseOk := fun _ => true, parseErrors := fun _ => [], buildResult := some 9 }

/-- Interchange-format environment with an unavailable simplifier module and
a parser that rejects every file with one diagnostic. -/
def badOnnxEnv : OnnxEnv :=
  { onnxsimAvailable := false, spawnRaises := false, simplifierSucceeds := false,
    hasMemoryPoolApi := true, inputNames := [],
    parseOk := fun _ => false, parseErrors := fun _ => ["bad node"],
    buildResult := none }

/-- Interchange-format environment in which the simplifier process spawns and
runs but fails to produce the simplified file, after which parsing the chosen
(nonexistent) file fails. -/
def runFailOnnxEnv : OnnxEnv :=
  { onnxsimAvailable := true, spawnRaises := false, simplifierSucceeds := false,
    hasMemoryPoolApi := true, inputNames := [],
    parseOk := fun _ => false, parseErrors := fun _ => ["file missing"],
    buildResult := none }

/-- C1: for every execute call, on either strategy, where the pair
(device, quantization_type) is not in the strategy's declared support table
(in particular every call on a cpu device, whose supported set is empty),
execute sets the compiled artifact to absent and returns without raising. -/
theorem C1_capability_gate_absent_no_error (device : Device)
    (qt : Option QuantizationType) (model : TorchModel) (params : ModelParams)
    (tfms : Option (List Tfm)) (mdt : Option Nat) (idata : Option DataManager)
    (tenv : TorchEnv) (cache0 : Bool) (omodel : String) (oenv : OnnxEnv)
    (fs0 : List String) (hgate : qt ∉ supported_ops device) :
    (torchExecute device model params tfms mdt qt idata tenv cache0).result =
      ExecResult.ok ∧
    (torchExecute device model params tfms mdt qt idata tenv cache0).sets =
      [none] ∧
    (onnxExecute device omodel params tfms mdt qt idata oenv fs0).result =
      ExecResult.ok ∧
    (onnxExecute device omodel params tfms mdt qt idata oenv fs0).sets =
      [none] := by
  unfold torchExecute onnxExecute
  rw [if_pos hgate, if_pos hgate]
  exact ⟨rfl, rfl, rfl, rfl⟩

/-- Witness for C1 at a concrete unsupported pair: half quantization on cpu. -/
theorem C1_capability_gate_absent_no_error_witness :
    (some QuantizationType.half ∉ supported_ops Device.cpu) ∧
    ((torchExecute Device.cpu sampleModel sampleParams (some []) none
        (some QuantizationType.half) (some sampleData) okTorchEnv false).result =
      ExecResult.ok ∧
    (torchExecute Device.cpu sampleModel sampleParams (some []) none
        (some QuantizationType.half) (some sampleData) okTorchEnv false).sets =
      [none] ∧
    (onnxExecute Device.cpu "model.onnx" sampleParams (some []) none
        (some QuantizationType.half) (some sampleData) okOnnxEnv []).result =
      ExecResult.ok ∧
    (onnxExecute Device.cpu "model.onnx" sampleParams (some []) none
        (some QuantizationType.half) (some sampleData) okOnnxEnv []).sets =
      [none]) :=
  ⟨by decide,
   C1_capability_gate_absent_no_error Device.cpu (some QuantizationType.half)
     sampleModel sampleParams (some []) none (some sampleData) okTorchEnv false
     "model.onnx" okOnnxEnv [] (by decide)⟩

/-- Helper: one native-graph call assigns `self.compiled_model` exactly once
when it returns normally and never when it raises. -/
theorem torch_sets_one (device : Device) (model : TorchModel)
    (params : ModelParams) (tfms : Option (List Tfm)) (mdt : Option Nat)
    (qt : Option QuantizationType) (idata : Option DataManager)
    (tenv : TorchEnv) (cache0 : Bool) :
    ((torchExecute device model params tfms mdt qt idata tenv cache0).result =
        ExecResult.ok ↔
      (torchExecute device model params tfms mdt qt idata tenv cache0).sets.length = 1) ∧
    (torchExecute device model params tfms mdt qt idata tenv cache0).sets.length ≤ 1 := by
  rcases tenv with ⟨sr, tr, cres, cc⟩
  rcases qt with _ | q
  case none =>
    cases device <;> cases tfms <;> cases idata <;> cases sr <;> cases tr <;>
      rcases cres with _ | n <;>
      simp [torchExecute, torchRest, torchCompileModel, supported_ops]
  case some =>
    cases q <;> cases device <;> cases tfms <;> cases idata <;> cases sr <;>
      cases tr <;> rcases cres with _ | n <;>
      simp [torchExecute, torchRest, torchCompileModel, supported_ops]

/-- Helper: one interchange-format call assigns `self.compiled_model` exactly
once when it returns normally and never when it raises. -/
theorem onnx_sets_one (device : Device) (omodel : String)
    (params : ModelParams) (tfms : Option (List Tfm)) (mdt : Option Nat)
    (qt : Option QuantizationType) (idata : Option DataManager)
    (oenv : OnnxEnv) (fs0 : List String) :
    ((onnxExecute device omodel params tfms mdt qt idata oenv fs0).result =
        ExecResult.ok ↔
      (onnxExecute device omodel params tfms mdt qt idata oenv fs0).sets.length = 1) ∧
    (onnxExecute device omodel params tfms mdt qt idata oenv fs0).sets.length ≤ 1 := by
  rcases qt with _ | q
  case none =>
    cases device <;> cases idata <;>
      simp only [onnxExecute, onnxCompileModel, supported_ops] <;>
      (repeat' split) <;> simp_all
  case some =>
    cases q <;> cases device <;> cases idata <;>
      simp only [onnxExecute, onnxCompileModel, supported_ops] <;>
      (repeat' split) <;> simp_all

/-- C2 (counterexample): a native-graph call with static quantization on gpu
and a null data source raises and produces neither a compiled artifact nor an
explicit absent result — `self.compiled_model` is not assigned at all, so the
claimed invariant fails for calls that terminate by raising an error. -/
theorem C2_counterexample :
    (torchExecute Device.gpu sampleModel sampleParams (some []) none
        (some QuantizationType.static) none okTorchEnv false).result =
      ExecResult.err (Err.valueError ErrMsg.inputDataRequired) ∧
    (torchExecute Device.gpu sampleModel sampleParams (some []) none
        (some QuantizationType.static) none okTorchEnv false).sets = [] := by
  decide

/-- C2 (amended): every execute call, on either strategy, that returns
normally assigns the compiled-artifact attribute exactly once (either an
artifact or the explicit absent marker, never both); a call that terminates
by raising an error performs no assignment at all, leaving the attribute
untouched. -/
theorem C2_exactly_one_outcome (device : Device) (model : TorchModel)
    (params : ModelParams) (tfms : Option (List Tfm)) (mdt : Option Nat)
    (qt : Option QuantizationType) (idata : Option DataManager)
    (tenv : TorchEnv) (cache0 : Bool) (omodel : String) (oenv : OnnxEnv)
    (fs0 : List String) :
    ((torchExecute device model params tfms mdt qt idata tenv cache0).result =
        ExecResult.ok ↔
      (torchExecute device model params tfms mdt qt idata tenv cache0).sets.length = 1) ∧
    (torchExecute device model params tfms mdt qt idata tenv cache0).sets.length ≤ 1 ∧
    ((onnxExecute device omodel params tfms mdt qt idata oenv fs0).result =
        ExecResult.ok ↔
      (onnxExecute device omodel params tfms mdt qt idata oenv fs0).sets.length = 1) ∧
    (onnxExecute device omodel params tfms mdt qt idata oenv fs0).sets.length ≤ 1 :=
  ⟨(torch_sets_one device model params tfms mdt qt idata tenv cache0).1,
   (torch_sets_one device model params tfms mdt qt idata tenv cache0).2,
   (onnx_sets_one device omodel params tfms mdt qt idata oenv fs0).1,
   (onnx_sets_one device omodel params tfms mdt qt idata oenv fs0).2⟩

/-- C3: code-bug exhibit. A native-graph call with static quantization in
which the backend writes `calibration.cache` and then raises leaves the cache
file existing after the call, because the deletion at tensor_rt.py lines
187-189 runs only after a successful `torch_tensorrt.compile` (there is no
try / finally), contradicting the guaranteed-cleanup claim. -/
theorem C3_cache_persists_when_backend_raises :
    (torchExecute Device.gpu sampleModel sampleParams (some []) none
        (some QuantizationType.static) (some sampleData) failTorchEnv false).cache =
      true ∧
    (torchExecute Device.gpu sampleModel sampleParams (some []) none
        (some QuantizationType.static) (some sampleData) failTorchEnv false).result =
      ExecResult.err Err.backendFailure := by
  decide

/-- C4 (counterexample): on a cpu device the capability gate fires first, so
an execute call with static quantization and a null data source returns
normally with an absent artifact instead of raising the claimed
invalid-argument error, on both strategies. -/
theorem C4_counterexample :
    (torchExecute Device.cpu sampleModel sampleParams (some []) none
        (some QuantizationType.static) none okTorchEnv false).result =
      ExecResult.ok ∧
    (onnxExecute Device.cpu "model.onnx" sampleParams (some []) none
        (some QuantizationType.static) none okOnnxEnv []).result =
      ExecResult.ok := by
  decide

/-- C4 (amended): on a device whose support table contains static
quantization (gpu), every execute call, on either strategy, with static
quantization and a null data source raises the invalid-argument error, and no
backend builder, network, calibrator or parser object is constructed before
the error. -/
theorem C4_static_null_data_raises (device : Device) (model : TorchModel)
    (params : ModelParams) (tfms : Option (List Tfm)) (mdt : Option Nat)
    (tenv : TorchEnv) (cache0 : Bool) (omodel : String) (oenv : OnnxEnv)
    (fs0 : List String)
    (hdev : some QuantizationType.static ∈ supported_ops device) :
    (torchExecute device model params tfms mdt (some QuantizationType.static)
        none tenv cache0).result =
      ExecResult.err (Err.valueError ErrMsg.inputDataRequired) ∧
    (torchExecute device model params tfms mdt (some QuantizationType.static)
        none tenv cache0).events = [] ∧
    (onnxExecute device omodel params tfms mdt (some QuantizationType.static)
        none oenv fs0).result =
      ExecResult.err (Err.valueError ErrMsg.inputDataRequired) ∧
    (onnxExecute device omodel params tfms mdt (some QuantizationType.static)
        none oenv fs0).events = [] := by
  unfold torchExecute onnxExecute
  rw [if_neg (not_not_intro hdev), if_neg (not_not_intro hdev),
    if_pos ⟨rfl, rfl⟩, if_pos ⟨rfl, rfl⟩]
  exact ⟨rfl, rfl, rfl, rfl⟩

/-- Witness for C4 (amended) at gpu. -/
theorem C4_static_null_data_raises_witness :
    (some QuantizationType.static ∈ supported_ops Device.gpu) ∧
    ((torchExecute Device.gpu sampleModel sampleParams (some []) none
        (some QuantizationType.static) none okTorchEnv false).result =
      ExecResult.err (Err.valueError ErrMsg.inputDataRequired) ∧
    (torchExecute Device.gpu sampleModel sampleParams (some []) none
        (some QuantizationType.static) none okTorchEnv false).events = [] ∧
    (onnxExecute Device.gpu "model.onnx" sampleParams (some []) none
        (some QuantizationType.static) none okOnnxEnv []).result =
      ExecResult.err (Err.valueError ErrMsg.inputDataRequired) ∧
    (onnxExecute Device.gpu "model.onnx" sampleParams (some []) none
        (some QuantizationType.static) none okOnnxEnv []).events = []) :=
  ⟨by decide,
   C4_static_null_data_raises Device.gpu sampleModel sampleParams (some [])
     none okTorchEnv false "model.onnx" okOnnxEnv [] (by decide)⟩

/-- C5: for every model with dynamic shape information, the
interchange-format strategy builds, per declared input, the
optimization-profile triple whose minimum batch dimension is
`min(batch_size, 1)` exactly when dimension 0 is dynamic, whose later minimum
dimensions are the declared minimum bound (default 1) exactly when dynamic
and the static size otherwise, and whose optimal and maximum shapes are the
configured batch size followed by the static sizes. -/
theorem C5_dynamic_profile_triples (device : Device) (omodel : String)
    (params : ModelParams) (di : DynamicInfo) (tfms : Option (List Tfm))
    (mdt : Option Nat) (qt : Option QuantizationType) (d : DataManager)
    (env : OnnxEnv) (fs0 : List String)
    (hgate : qt ∈ supported_ops device)
    (hdi : params.dynamic_info = some di)
    (hparse : env.parseOk (simplifyStep omodel env fs0).1 = true) :
    (onnxExecute device omodel params tfms mdt qt (some d) env fs0).profile =
      some ((env.inputNames.zip (di.inputs.zip params.input_infos)).map (fun x =>
        (x.1,
         (if 0 ∈ x.2.1 then min params.batch_size 1 else params.batch_size) ::
           x.2.2.size.enum.map (fun p =>
             if p.1 + 1 ∈ x.2.1 then minSizeLookup x.2.2.min_sizes (p.1 + 1)
             else p.2),
         params.batch_size :: x.2.2.size,
         params.batch_size :: x.2.2.size))) := by
  have h1 : ¬qt ∉ supported_ops device := not_not_intro hgate
  have h2 : ¬(qt = some QuantizationType.static ∧
      (some d : Option DataManager) = none) := by simp
  rcases hb : env.buildResult with _ | a <;>
    simp [onnxExecute, onnxCompileModel, h1, h2, hdi, hparse, hb,
      buildProfile, minShape]

/-- Witness for C5 at the worked example of the spec: batch size 8, static
size 3 x 224 x 224, dimensions 0 and 2 dynamic, minimum bound 32 on
dimension 2, giving min (1, 3, 32, 224) and opt = max (8, 3, 224, 224). -/
theorem C5_dynamic_profile_triples_witness :
    ((none : Option QuantizationType) ∈ supported_ops Device.gpu) ∧
    (onnxExecute Device.gpu "model.onnx" exParams (some []) none none
        (some sampleData) okOnnxEnv []).profile =
      some [("input_0", [1, 3, 32, 224], [8, 3, 224, 224], [8, 3, 224, 224])] :=
  ⟨by decide,
   (C5_dynamic_profile_triples Device.gpu "model.onnx" exParams
      { inputs := [[0, 2]] } (some []) none none sampleData okOnnxEnv []
      (by decide) rfl rfl).trans (by decide)⟩

/-- C6: for every interchange-format execute call on which the parser rejects
the chosen graph file, execute raises the invalid-model error naming that
file path, after logging every parser-reported diagnostic (hence at least one
when there is any), and the call assigns no compiled artifact. -/
theorem C6_parse_failure_raises_invalid_model (device : Device)
    (omodel : String) (params : ModelParams) (tfms : Option (List Tfm))
    (mdt : Option Nat) (qt : Option QuantizationType) (d : DataManager)
    (env : OnnxEnv) (fs0 : List String)
    (hgate : qt ∈ supported_ops device)
    (hparse : env.parseOk (simplifyStep omodel env fs0).1 = false) :
    (onnxExecute device omodel params tfms mdt qt (some d) env fs0).result =
      ExecResult.err (Err.valueError
        (ErrMsg.onnxParseError (simplifyStep omodel env fs0).1)) ∧
    (onnxExecute device omodel params tfms mdt qt (some d) env fs0).sets = [] ∧
    (∀ m ∈ env.parseErrors (simplifyStep omodel env fs0).1,
      LogEvent.debugParserMsg m ∈
        (onnxExecute device omodel params tfms mdt qt (some d) env fs0).log) ∧
    (env.parseErrors (simplifyStep omodel env fs0).1 ≠ [] →
      ∃ m, LogEvent.debugParserMsg m ∈
        (onnxExecute device omodel params tfms mdt qt (some d) env fs0).log) := by
  have h1 : ¬qt ∉ supported_ops device := not_not_intro hgate
  have h2 : ¬(qt = some QuantizationType.static ∧
      (some d : Option DataManager) = none) := by simp
  have hmem : ∀ m ∈ env.parseErrors (simplifyStep omodel env fs0).1,
      LogEvent.debugParserMsg m ∈
        (onnxExecute device omodel params tfms mdt qt (some d) env fs0).log := by
    intro m hm
    simp [onnxExecute, onnxCompileModel, h1, h2, hparse]
    exact hm
  refine ⟨?_, ?_, hmem, ?_⟩
  · simp [onnxExecute, onnxCompileModel, h1, h2, hparse]
  · simp [onnxExecute, onnxCompileModel, h1, h2, hparse]
  · intro hne
    obtain ⟨m, hm⟩ := List.exists_mem_of_ne_nil _ hne
    exact ⟨m, hmem m hm⟩

/-- Witness for C6: an environment whose parser rejects every file with one
diagnostic, on a no-quantization gpu call. -/
theorem C6_parse_failure_raises_invalid_model_witness :
    ((none : Option QuantizationType) ∈ supported_ops Device.gpu) ∧
    badOnnxEnv.parseOk (simplifyStep "model.onnx" badOnnxEnv []).1 = false ∧
    ((onnxExecute Device.gpu "model.onnx" sampleParams (some []) none none
        (some sampleData) badOnnxEnv []).result =
      ExecResult.err (Err.valueError
        (ErrMsg.onnxParseError (simplifyStep "model.onnx" badOnnxEnv []).1)) ∧
    (onnxExecute Device.gpu "model.onnx" sampleParams (some []) none none
        (some sampleData) badOnnxEnv []).sets = [] ∧
    (∀ m ∈ badOnnxEnv.parseErrors (simplifyStep "model.onnx" badOnnxEnv []).1,
      LogEvent.debugParserMsg m ∈
        (onnxExecute Device.gpu "model.onnx" sampleParams (some []) none none
          (some sampleData) badOnnxEnv []).log) ∧
    (badOnnxEnv.parseErrors (simplifyStep "model.onnx" badOnnxEnv []).1 ≠ [] →
      ∃ m, LogEvent.debugParserMsg m ∈
        (onnxExecute Device.gpu "model.onnx" sampleParams (some []) none none
          (some sampleData) badOnnxEnv []).log)) :=
  ⟨by decide, rfl,
   C6_parse_failure_raises_invalid_model Device.gpu "model.onnx" sampleParams
     (some []) none none sampleData badOnnxEnv [] (by decide) rfl⟩

/-- C7 (counterexample): on a cpu device a native-graph call with half
quantization is rejected by the capability gate, so no half-precision
transformation is appended at all — the pipeline stays empty — contradicting
the claim for every execute call with half quantization. -/
theorem C7_counterexample :
    (torchExecute Device.cpu sampleModel sampleParams (some []) none
        (some QuantizationType.half) (some sampleData) okTorchEnv false).tfms =
      some [] ∧
    (torchExecute Device.cpu sampleModel sampleParams (some []) none
        (some QuantizationType.half) (some sampleData) okTorchEnv false).result =
      ExecResult.ok := by
  decide

/-- C7 (amended): on a device whose support table contains half quantization
(gpu), every native-graph call with half quantization and a non-null
transformation pipeline appends exactly one half-precision transformation to
it, and the 16-bit cast is applied only to the deep copy handed to the
backend: the caller's model keeps its dtype on every path of the call. -/
theorem C7_half_appends_once_and_casts_copy (device : Device)
    (model : TorchModel) (params : ModelParams) (l : List Tfm)
    (mdt : Option Nat) (idata : Option DataManager) (tenv : TorchEnv)
    (cache0 : Bool)
    (hdev : some QuantizationType.half ∈ supported_ops device) :
    (torchExecute device model params (some l) mdt
        (some QuantizationType.half) idata tenv cache0).tfms =
      some (l ++ [Tfm.halfPrecisionTransformation]) ∧
    (torchExecute device model params (some l) mdt
        (some QuantizationType.half) idata tenv cache0).model.dtype =
      model.dtype ∧
    (∀ a, (torchExecute device model params (some l) mdt
        (some QuantizationType.half) idata tenv cache0).compileArg = some a →
      a.dtype = TDtype.half) := by
  have h1 : ¬some QuantizationType.half ∉ supported_ops device :=
    not_not_intro hdev
  rcases tenv with ⟨sr, tr, cres, cc⟩
  cases idata <;> cases sr <;> cases tr <;> rcases cres with _ | n <;>
    simp [torchExecute, torchRest, torchCompileModel, h1]

/-- Witness for C7 (amended) at gpu with a working backend. -/
theorem C7_half_appends_once_and_casts_copy_witness :
    (some QuantizationType.half ∈ supported_ops Device.gpu) ∧
    ((torchExecute Device.gpu sampleModel sampleParams (some []) none
        (some QuantizationType.half) (some sampleData) okTorchEnv false).tfms =
      some [Tfm.halfPrecisionTransformation] ∧
    (torchExecute Device.gpu sampleModel sampleParams (some []) none
        (some QuantizationType.half) (some sampleData) okTorchEnv false).model.dtype =
      sampleModel.dtype ∧
    (∀ a, (torchExecute Device.gpu sampleModel sampleParams (some []) none
        (some QuantizationType.half) (some sampleData) okTorchEnv false).compileArg =
        some a → a.dtype = TDtype.half)) :=
  ⟨by decide,
   C7_half_appends_once_and_casts_copy Device.gpu sampleModel sampleParams []
     none (some sampleData) okTorchEnv false (by decide)⟩

/-- C8 (counterexample): when the simplifier process spawns and runs but
fails to produce the simplified file, the broad except clause does not fire,
so execute continues with the simplified path — not the original file — and
the call then dies fatally at parse time on the nonexistent file. -/
theorem C8_counterexample :
    (onnxExecute Device.gpu "model.onnx" sampleParams (some []) none none
        (some sampleData) runFailOnnxEnv []).pathUsed =
      some "model.onnx_simplified" ∧
    "model.onnx_simplified" ≠ "model.onnx" ∧
    (onnxExecute Device.gpu "model.onnx" sampleParams (some []) none none
        (some sampleData) runFailOnnxEnv []).fs = [] ∧
    (onnxExecute Device.gpu "model.onnx" sampleParams (some []) none none
        (some sampleData) runFailOnnxEnv []).result =
      ExecResult.err (Err.valueError
        (ErrMsg.onnxParseError "model.onnx_simplified")) := by
  decide

/-- Helper: the simplification failures that raise a Python exception — an
unavailable simplifier module, or a raising process spawn when no simplified
file pre-exists — are caught and fall back to the original path, leaving the
file system unchanged. -/
theorem simplifyStep_exception_fallback (omodel : String) (env : OnnxEnv)
    (fs0 : List String)
    (hfail : env.onnxsimAvailable = false ∨
      (env.spawnRaises = true ∧ omodel ++ "_simplified" ∉ fs0)) :
    simplifyStep omodel env fs0 = (omodel, fs0) := by
  rcases hfail with h | ⟨h, hmem⟩
  · simp [simplifyStep, h]
  · by_cases ha : env.onnxsimAvailable <;>
      simp [simplifyStep, ha, h, hmem]

/-- C8 (amended): a simplification failure that raises an exception in the
host process (simplifier module unavailable, or process spawn failure with no
pre-existing simplified file) is silently swallowed: execute continues with
the original serialized model file and proceeds to the build phase. A
simplifier process that runs but produces no file is not such a failure: the
simplified path stays selected (see the counterexample). -/
theorem C8_exception_failures_fall_back (device : Device) (omodel : String)
    (params : ModelParams) (tfms : Option (List Tfm)) (mdt : Option Nat)
    (qt : Option QuantizationType) (d : DataManager) (env : OnnxEnv)
    (fs0 : List String)
    (hgate : qt ∈ supported_ops device)
    (hfail : env.onnxsimAvailable = false ∨
      (env.spawnRaises = true ∧ omodel ++ "_simplified" ∉ fs0)) :
    (onnxExecute device omodel params tfms mdt qt (some d) env fs0).pathUsed =
      some omodel ∧
    BEvent.builderCreated ∈
      (onnxExecute device omodel params tfms mdt qt (some d) env fs0).events := by
  have h1 : ¬qt ∉ supported_ops device := not_not_intro hgate
  have h2 : ¬(qt = some QuantizationType.static ∧
      (some d : Option DataManager) = none) := by simp
  have hs := simplifyStep_exception_fallback omodel env fs0 hfail
  cases hp : env.parseOk omodel <;> rcases hb : env.buildResult with _ | a <;>
    rcases hdi : params.dynamic_info with _ | di <;>
    simp [onnxExecute, onnxCompileModel, h1, h2, hs, hp, hb, hdi]

/-- Witness for C8 (amended): the simplifier module is unavailable. -/
theorem C8_exception_failures_fall_back_witness :
    ((none : Option QuantizationType) ∈ supported_ops Device.gpu) ∧
    badOnnxEnv.onnxsimAvailable = false ∧
    ((onnxExecute Device.gpu "model.onnx" sampleParams (some []) none none
        (some sampleData) badOnnxEnv []).pathUsed = some "model.onnx" ∧
    BEvent.builderCreated ∈
      (onnxExecute Device.gpu "model.onnx" sampleParams (some []) none none
        (some sampleData) badOnnxEnv []).events) :=
  ⟨by decide, rfl,
   C8_exception_failures_fall_back Device.gpu "model.onnx" sampleParams
     (some []) none none sampleData badOnnxEnv [] (by decide) (Or.inl rfl)⟩

/-- Helper: whenever a native-graph call prepares input tensors, they are
exactly the first batch of the data source mapped through the int64-to-int32
cuda conversion. -/
theorem torch_inputTensors_converted (device : Device) (model : TorchModel)
    (params : ModelParams) (tfms : Option (List Tfm)) (mdt : Option Nat)
    (qt : Option QuantizationType) (d : DataManager) (tenv : TorchEnv)
    (cache0 : Bool) :
    (torchExecute device model params tfms mdt qt (some d) tenv
        cache0).inputTensors = none ∨
    (torchExecute device model params tfms mdt qt (some d) tenv
        cache0).inputTensors = some (d.batch.map convertInputTensor) := by
  rcases tenv with ⟨sr, tr, cres, cc⟩
  rcases qt with _ | q
  case none =>
    cases device <;> cases tfms <;> cases sr <;> cases tr <;>
      rcases cres with _ | n <;>
      simp [torchExecute, torchRest, torchCompileModel, supported_ops]
  case some =>
    cases q <;> cases device <;> cases tfms <;> cases sr <;> cases tr <;>
      rcases cres with _ | n <;>
      simp [torchExecute, torchRest, torchCompileModel, supported_ops]

/-- C9: every native-graph execute call that reaches the compilation step
presents each 64-bit integer input tensor to the backend as a 32-bit integer
tensor, for every quantization type, while the other tensors keep their
dtype. -/
theorem C9_int64_presented_as_int32 (device : Device) (model : TorchModel)
    (params : ModelParams) (tfms : Option (List Tfm)) (mdt : Option Nat)
    (qt : Option QuantizationType) (d : DataManager) (tenv : TorchEnv)
    (cache0 : Bool) (ts : List Tensor)
    (h : (torchExecute device model params tfms mdt qt (some d) tenv
        cache0).inputTensors = some ts) :
    ts.map Tensor.dtype =
      d.batch.map (fun t =>
        if t.dtype = TDtype.int64 then TDtype.int32 else t.dtype) := by
  have hts : ts = d.batch.map convertInputTensor := by
    rcases torch_inputTensors_converted device model params tfms mdt qt d tenv
        cache0 with hn | hsome
    · rw [hn] at h; exact absurd h (by simp)
    · rw [hsome] at h; exact (Option.some.injEq _ _ ▸ h).symm
  subst hts
  rw [List.map_map]
  refine List.map_congr_left ?_
  intro t _
  by_cases ht : t.dtype = TDtype.int64 <;>
    simp [convertInputTensor, Function.comp, ht]

/-- Witness for C9: a no-quantization gpu call over one int64 and one float32
tensor; the int64 tensor is presented as int32, the float32 one unchanged. -/
theorem C9_int64_presented_as_int32_witness :
    (torchExecute Device.gpu sampleModel sampleParams (some []) none none
        (some sampleData) okTorchEnv false).inputTensors =
      some (sampleData.batch.map convertInputTensor) ∧
    (sampleData.batch.map convertInputTensor).map Tensor.dtype =
      sampleData.batch.map (fun t =>
        if t.dtype = TDtype.int64 then TDtype.int32 else t.dtype) :=
  ⟨by decide,
   C9_int64_presented_as_int32 Device.gpu sampleModel sampleParams (some [])
     none none sampleData okTorchEnv false
     (sampleData.batch.map convertInputTensor) (by decide)⟩

/-- C10 (counterexample): a gpu call with no quantization and a null sample
data source raises an attribute error on both strategies instead of
completing, because both access the data source unconditionally after the
gate (input preparation on the native path, eager training-data extraction on
the interchange path). -/
theorem C10_counterexample :
    (torchExecute Device.gpu sampleModel sampleParams (some []) none none
        none okTorchEnv false).result = ExecResult.err Err.attributeError ∧
    (onnxExecute Device.gpu "model.onnx" sampleParams (some []) none none
        none okOnnxEnv []).result = ExecResult.err Err.attributeError := by
  decide

/-- C10 (amended): on either strategy, every gate-passing call dereferences
the sample data source regardless of quantization type, so a null data source
makes every gate-passing call with non-static quantization raise an attribute
error rather than complete. -/
theorem C10_null_data_raises_even_without_static (device : Device)
    (model : TorchModel) (params : ModelParams) (tfms : Option (List Tfm))
    (mdt : Option Nat) (qt : Option QuantizationType) (tenv : TorchEnv)
    (cache0 : Bool) (omodel : String) (oenv : OnnxEnv) (fs0 : List String)
    (hgate : qt ∈ supported_ops device)
    (hq : qt ≠ some QuantizationType.static) :
    (torchExecute device model params tfms mdt qt none tenv cache0).result =
      ExecResult.err Err.attributeError ∧
    (onnxExecute device omodel params tfms mdt qt none oenv fs0).result =
      ExecResult.err Err.attributeError := by
  have h1 : ¬qt ∉ supported_ops device := not_not_intro hgate
  have h2 : ¬(qt = some QuantizationType.static ∧
      (none : Option DataManager) = none) := fun h => hq h.1
  rcases qt with _ | q
  · simp [torchExecute, torchRest, onnxExecute, h1, h2]
  · cases q
    · exact absurd rfl hq
    · cases tfms <;> simp [torchExecute, torchRest, onnxExecute, h1, h2]

/-- Witness for C10 (amended) at a gpu call with no quantization. -/
theorem C10_null_data_raises_even_without_static_witness :
    ((none : Option QuantizationType) ∈ supported_ops Device.gpu) ∧
    ((none : Option QuantizationType) ≠ some QuantizationType.static) ∧
    ((torchExecute Device.gpu sampleModel sampleParams (some []) none none
        none okTorchEnv false).result = ExecResult.err Err.attributeError ∧
    (onnxExecute Device.gpu "model.onnx" sampleParams (some []) none none
        none okOnnxEnv []).result = ExecResult.err Err.attributeError) :=
  ⟨by decide, by decide,
   C10_null_data_raises_even_without_static Device.gpu sampleModel
     sampleParams (some []) none none okTorchEnv false "model.onnx" okOnnxEnv
     [] (by decide) (by decide)⟩

end NebullvmTensorRT
